import Mathlib
/-!
Shallow embedding of the uniform-binding descriptor generator in
crates/bevy_derive/src/uniforms.rs (the derive_uniforms pass).

The source is a code generator: from a struct's named fields and their
uniform annotations it emits a FieldInfo table, four name-keyed dispatch
accessors, a shader-define list builder, and an optional vertex-buffer
layout.  The embedding models one struct as a list of FieldModel values,
each carrying the field's name, its parsed UniformAttributes, and the
results of the external per-field capabilities that the generated code
invokes at run time (get_bind_type, write_bytes, byte_len, get_texture,
get_shader_def, as_vertex_formats).  External string case conversions from
the inflector crate (to_pascal_case, to_screaming_snake_case) are taken as
function parameters; Rust's to_uppercase is modelled by String.toUpper.
Rust panics are modelled as Except.error results.
-/
/-- Raw annotation arguments as parsed by darling: in the source every field
of UniformAttributeArgs is an Option with a darling default of None
(uniforms.rs lines 8-20). -/
structure UniformAttributeArgs where
  ignore : Option Bool := none
  shader_def : Option Bool := none
  instance_ : Option Bool := none
  vertex : Option Bool := none
  buffer : Option Bool := none
deriving DecidableEq
/-- Resolved per-field flags, all boolean (uniforms.rs lines 22-29).  The
source field named instance is spelled instance_ because instance is a Lean
keyword. -/
structure UniformAttributes where
  ignore : Bool := false
  shader_def : Bool := false
  instance_ : Bool := false
  vertex : Bool := false
  buffer : Bool := false
deriving DecidableEq
/-- From<UniformAttributeArgs> for UniformAttributes: each flag is
unwrap_or(false) (uniforms.rs lines 31-41). -/
def UniformAttributes.ofArgs (args : UniformAttributeArgs) : UniformAttributes :=
  { ignore := args.ignore.getD false
    shader_def := args.shader_def.getD false
    instance_ := args.instance_.getD false
    vertex := args.vertex.getD false
    buffer := args.buffer.getD false }
/-- The attribute name the generator looks for (uniforms.rs line 43). -/
def UNIFORM_ATTRIBUTE_NAME : String := "uniform"
/-- One syntactic attribute on a field.  path models
a.path.get_ident().to_string().  parsed_meta models the composition of the
two external parsers the source applies to a found attribute (uniforms.rs
lines 71-76): the outer Option is the result of syn's a.parse_meta() (none
models Err, which the source unwraps, hence panics on), and the inner
Option is the result of darling's UniformAttributeArgs::from_meta on the
parsed meta item (none models Err, which the source maps to the default
args via unwrap_or_else). -/
structure Attribute where
  path : String
  parsed_meta : Option (Option UniformAttributeArgs)
deriving DecidableEq
/-- Panic message produced by .unwrap() on the Err of parse_meta
(uniforms.rs line 73). -/
def parseMetaPanicMessage : String := "called Result::unwrap on an Err value"
/-- Attribute resolution for one field (uniforms.rs lines 61-80): find the
first attribute whose path is "uniform"; if none, use default attributes;
otherwise unwrap the parse_meta result (panicking, modelled as
Except.error, when meta parsing failed) and fall back to default args when
from_meta rejects the meta item. -/
def parseFieldAttributes (attrs : List Attribute) : Except String UniformAttributes :=
  match attrs.find? (fun a => a.path == UNIFORM_ATTRIBUTE_NAME) with
  | none => Except.ok {}
  | some a =>
    match a.parsed_meta with
    | none => Except.error parseMetaPanicMessage
    | some m => Except.ok (UniformAttributes.ofArgs (m.getD {}))
/-- Bind-type shape of a field value on the GPU, mirroring
bevy_render::shader::FieldBindType as used by the generator: a plain
uniform with a byte size, a raw buffer with a byte size, or a texture. -/
inductive FieldBindType where
  | Uniform (size : Nat)
  | Buffer (size : Nat)
  | Texture
deriving DecidableEq
/-- One GPU vertex component format; only its byte size (get_size) matters
to the generator. -/
structure VertexFormat where
  size : Nat
deriving DecidableEq
/-- One field of the struct being derived, together with the run-time
results of the external capabilities the generated code calls on the
field's value: bind_type models self.field.get_bind_type(), write_bytes
models Bytes::write_bytes into a byte buffer, byte_len models
Bytes::byte_len, texture models GetTexture::get_texture (a handle id),
shader_def_suffix models ShaderDefSuffixProvider::get_shader_def, and
vertex_formats models FieldType::as_vertex_formats(). -/
structure FieldModel where
  name : String
  attrs : UniformAttributes
  bind_type : Option FieldBindType
  write_bytes : List Nat → List Nat
  byte_len : Nat
  texture : Option Nat
  shader_def_suffix : Option String
  vertex_formats : List VertexFormat
/-- Static per-field metadata, mirroring bevy_render::shader::FieldInfo. -/
structure FieldInfo where
  name : String
  uniform_name : String
  texture_name : String
  sampler_name : String
  is_instanceable : Bool
deriving DecidableEq
/-- Step mode of a vertex buffer, mirroring
bevy_render::pipeline::InputStepMode. -/
inductive InputStepMode where
  | Vertex
  | Instance
deriving DecidableEq
/-- One vertex attribute, mirroring
bevy_render::pipeline::VertexAttributeDescriptor. -/
structure VertexAttributeDescriptor where
  name : String
  offset : Nat
  format : VertexFormat
  shader_location : Nat
deriving DecidableEq
/-- A vertex buffer layout, mirroring
bevy_render::pipeline::VertexBufferDescriptor. -/
structure VertexBufferDescriptor where
  attributes : List VertexAttributeDescriptor
  name : String
  step_mode : InputStepMode
  stride : Nat
deriving DecidableEq
/-- The vectors filled by the classification loop of derive_uniforms
(uniforms.rs lines 84-150).  Arm lists pair the match-arm name string with
the field whose accessor the arm dispatches to: bind_arms corresponds to
active_uniform_field_name_strings paired with the per-field bind-type
expression, uniform_arms to uniform_name_strings paired with
active_uniform_field_names, texture_arms to
texture_and_sampler_name_strings paired with
texture_and_sampler_name_idents, shader_def_arms to
shader_def_field_names_screaming_snake paired with shader_def_field_names,
and vertex_pairs to vertex_buffer_field_names_pascal paired with the
as_vertex_formats result for vertex_buffer_field_types. -/
structure ClassifierOutput where
  field_infos : List FieldInfo
  bind_arms : List (String × FieldModel)
  uniform_arms : List (String × FieldModel)
  texture_arms : List (String × FieldModel)
  shader_def_arms : List (String × FieldModel)
  vertex_pairs : List (String × List VertexFormat)
/-- The classification loop of derive_uniforms (uniforms.rs lines 98-150),
one pass over the fields in declared order.  sn is the struct name, p the
inflector to_pascal_case function and s the inflector
to_screaming_snake_case function.  A non-ignored field contributes its
FieldInfo and its four dispatch arms; independently, a shader_def field
contributes a shader-define arm, and an instance or vertex field
contributes a vertex-format pair whose name carries the I_ marker exactly
when the instance flag is set. -/
def classifyFields (sn : String) (p s : String → String) :
    List FieldModel → ClassifierOutput
  | [] =>
    { field_infos := [], bind_arms := [], uniform_arms := [], texture_arms := []
      shader_def_arms := [], vertex_pairs := [] }
  | f :: rest =>
    let out := classifyFields sn p s rest
    let uniform := sn ++ "_" ++ f.name
    let texture := uniform
    let sampler := uniform ++ "_sampler"
    { field_infos :=
        (if f.attrs.ignore then [] else
          [{ name := f.name, uniform_name := uniform, texture_name := texture
             sampler_name := sampler, is_instanceable := f.attrs.instance_ }]) ++ out.field_infos
      bind_arms := (if f.attrs.ignore then [] else [(f.name, f)]) ++ out.bind_arms
      uniform_arms := (if f.attrs.ignore then [] else [(uniform, f)]) ++ out.uniform_arms
      texture_arms :=
        (if f.attrs.ignore then [] else [(texture, f), (sampler, f)]) ++ out.texture_arms
      shader_def_arms :=
        (if f.attrs.shader_def then [(s f.name, f)] else []) ++ out.shader_def_arms
      vertex_pairs :=
        (if f.attrs.instance_ || f.attrs.vertex then
          [(if f.attrs.instance_ then "I_" ++ sn ++ "_" ++ p f.name
            else sn ++ "_" ++ p f.name, f.vertex_formats)]
         else []) ++ out.vertex_pairs }
/-- Panic message of the buffer-shape check (uniforms.rs line 127; the
source message quotes the word buffer). -/
def bufferPanicMessage : String :=
  "Uniform field was labeled as a buffer, but it does not have a compatible type."
/-- The per-field bind-type expression of a dispatch arm (uniforms.rs lines
121-133): a buffer-annotated field reinterprets a Uniform bind type of some
size as a Buffer bind type of that size and panics (modelled as
Except.error) on every other bind type; a plain field just reports
get_bind_type's result. -/
def fieldBindTypeValue (f : FieldModel) : Except String (Option FieldBindType) :=
  if f.attrs.buffer then
    match f.bind_type with
    | some (FieldBindType.Uniform size) => Except.ok (some (FieldBindType.Buffer size))
    | _ => Except.error bufferPanicMessage
  else Except.ok f.bind_type
/-- get_field_bind_type of the generated AsUniforms impl (uniforms.rs lines
206-212): match on the field name strings in declared arm order, defaulting
to None. -/
def get_field_bind_type (sn : String) (p s : String → String) (fields : List FieldModel)
    (name : String) : Except String (Option FieldBindType) :=
  match (classifyFields sn p s fields).bind_arms.find? (fun arm => arm.1 == name) with
  | some arm => fieldBindTypeValue arm.2
  | none => Except.ok none
/-- get_uniform_texture of the generated impl (uniforms.rs lines 214-220):
match on the interleaved texture and sampler name strings, defaulting to
None. -/
def get_uniform_texture (sn : String) (p s : String → String) (fields : List FieldModel)
    (name : String) : Option Nat :=
  match (classifyFields sn p s fields).texture_arms.find? (fun arm => arm.1 == name) with
  | some arm => arm.2.texture
  | none => none
/-- write_uniform_bytes of the generated impl (uniforms.rs lines 222-228):
match on the uniform name strings, writing the matched field's bytes into
the buffer and doing nothing on an unmatched name. -/
def write_uniform_bytes (sn : String) (p s : String → String) (fields : List FieldModel)
    (name : String) (buffer : List Nat) : List Nat :=
  match (classifyFields sn p s fields).uniform_arms.find? (fun arm => arm.1 == name) with
  | some arm => arm.2.write_bytes buffer
  | none => buffer
/-- uniform_byte_len of the generated impl (uniforms.rs lines 229-235):
match on the uniform name strings, defaulting to 0. -/
def uniform_byte_len (sn : String) (p s : String → String) (fields : List FieldModel)
    (name : String) : Nat :=
  match (classifyFields sn p s fields).uniform_arms.find? (fun arm => arm.1 == name) with
  | some arm => arm.2.byte_len
  | none => 0
/-- get_shader_defs of the generated impl (uniforms.rs lines 240-250):
build the potential list of (screaming-snake label, optional suffix) pairs,
keep those with a suffix, format each as STRUCTUPPER_LABELsuffix, and wrap
the collection in Some.  The getD "" stands for the source's unwrap, which
the is_some filter has already made safe. -/
def get_shader_defs (sn : String) (p s : String → String) (fields : List FieldModel) :
    Option (List String) :=
  let potential := (classifyFields sn p s fields).shader_def_arms.map
    (fun arm => (arm.1, arm.2.shader_def_suffix))
  some ((potential.filter (fun q => q.2.isSome)).map
    (fun q => sn.toUpper ++ "_" ++ q.1 ++ q.2.getD ""))
/-- Formatted component name inside the vertex layout loop (uniforms.rs
lines 176-180): a field expanding to more than one format appends the
0-based component index to the base name, a single-format field keeps the
bare base name. -/
def componentName (name : String) (len i : Nat) : String :=
  if len > 1 then name ++ "_" ++ toString i else name
/-- Flattening of the two nested loops of the vertex layout builder
(uniforms.rs lines 173-191) into the sequence of (formatted name, format)
components, in iteration order: outer loop over the (base name, formats)
pairs, inner loop over each pair's formats with enumerate. -/
def componentList (pairs : List (String × List VertexFormat)) :
    List (String × VertexFormat) :=
  pairs.flatMap (fun pr => pr.2.enum.map (fun q => (componentName pr.1 pr.2.length q.1, q.2)))
/-- The counter-threading of the vertex layout loop (uniforms.rs lines
171-191): shader_location and offset start at the given accumulators, each
component receives the current counters, then shader_location advances by
one and offset by the component's size.  Returns the descriptors and the
final offset, which line 197 uses as the stride. -/
def buildVertexLayout : List (String × VertexFormat) → Nat → Nat →
    List VertexAttributeDescriptor × Nat
  | [], _, offset => ([], offset)
  | comp :: rest, loc, offset =>
    let d : VertexAttributeDescriptor :=
      { name := comp.1, offset := offset, format := comp.2, shader_location := loc }
    let r := buildVertexLayout rest (loc + 1) (offset + comp.2.size)
    (d :: r.1, r.2)
/-- The statically built vertex buffer descriptor (uniforms.rs lines
163-199): attributes from the flattened component list with counters
starting at 0, name the struct name, step_mode hardcoded to Instance, and
stride the final offset. -/
def mkVertexBufferDescriptor (sn : String) (p s : String → String)
    (fields : List FieldModel) : VertexBufferDescriptor :=
  let comps := componentList (classifyFields sn p s fields).vertex_pairs
  let r := buildVertexLayout comps 0 0
  { attributes := r.1, name := sn, step_mode := InputStepMode.Instance, stride := r.2 }
/-- get_vertex_buffer_descriptor of the generated impl (uniforms.rs lines
252-258): None when the built descriptor has no attributes, otherwise the
descriptor. -/
def get_vertex_buffer_descriptor (sn : String) (p s : String → String)
    (fields : List FieldModel) : Option VertexBufferDescriptor :=
  let d := mkVertexBufferDescriptor sn p s fields
  if d.attributes.length == 0 then none else some d
/-- get_field_infos of the generated impl (uniforms.rs lines 158-161 and
202-204): the FieldInfo list collected by the classification loop. -/
def get_field_infos (sn : String) (p s : String → String)
    (fields : List FieldModel) : List FieldInfo :=
  (classifyFields sn p s fields).field_infos
/-- FieldInfo record built for one non-ignored field, as pushed by the loop
(uniforms.rs lines 104-119). -/
def fieldInfoOf (sn : String) (f : FieldModel) : FieldInfo :=
  { name := f.name
    uniform_name := sn ++ "_" ++ f.name
    texture_name := sn ++ "_" ++ f.name
    sampler_name := sn ++ "_" ++ f.name ++ "_sampler"
    is_instanceable := f.attrs.instance_ }
/-- Vertex-attribute base token for one vertex-input field, as pushed by
the loop (uniforms.rs lines 143-148). -/
def vertexBaseName (sn : String) (p : String → String) (f : FieldModel) : String :=
  if f.attrs.instance_ then "I_" ++ sn ++ "_" ++ p f.name else sn ++ "_" ++ p f.name
/-- Concrete per-instance field used by witnesses: a field tagged instance
whose type expands to two GPU components of sizes 8 and 4. -/
def samplePositionField : FieldModel :=
  { name := "position"
    attrs := { instance_ := true }
    bind_type := none
    write_bytes := fun b => b
    byte_len := 0
    texture := none
    shader_def_suffix := none
    vertex_formats := [{ size := 8 }, { size := 4 }] }
/-- Concrete buffer-annotated field with a texture-shaped native bind type,
used by witnesses. -/
def sampleBufferField : FieldModel :=
  { name := "data"
    attrs := { buffer := true }
    bind_type := some FieldBindType.Texture
    write_bytes := fun b => b
    byte_len := 0
    texture := none
    shader_def_suffix := none
    vertex_formats := [] }
/-- Concrete plain uniform field with no annotation flags set, used by
witnesses. -/
def sampleColorField : FieldModel :=
  { name := "color"
    attrs := {}
    bind_type := some (FieldBindType.Uniform 16)
    write_bytes := fun b => b
    byte_len := 16
    texture := none
    shader_def_suffix := none
    vertex_formats := [] }
/-- The all-false UniformAttributes record, the Default::default() of the
source. -/
def defaultUniformAttributes : UniformAttributes :=
  { ignore := false
    shader_def := false
    instance_ := false
    vertex := false
    buffer := false }
/-- Uniform attribute whose content fails meta parsing, so syn's parse_meta
returns Err. -/
def malformedUniformAttr : Attribute :=
  { path := "uniform", parsed_meta := none }
/-- Uniform attribute whose content parses as a meta item but is rejected
by darling's from_meta. -/
def unrecognizedUniformAttr : Attribute :=
  { path := "uniform", parsed_meta := some none }
/-- First uniform attribute of the C10 witness: sets only ignore. -/
def firstUniformAttr : Attribute :=
  { path := "uniform", parsed_meta := some (some { ignore := some true }) }
/-- Second uniform attribute of the C10 witness: would set vertex, but is
ignored. -/
def secondUniformAttr : Attribute :=
  { path := "uniform", parsed_meta := some (some { vertex := some true }) }
theorem classify_field_infos (sn : String) (p s : String → String)
    (fields : List FieldModel) :
    (classifyFields sn p s fields).field_infos =
      (fields.filter (fun f => !f.attrs.ignore)).map (fieldInfoOf sn) := by
  induction fields with
  | nil => rfl
  | cons f rest ih =>
    simp only [classifyFields, List.filter_cons]
    cases h : f.attrs.ignore <;> simp [h, ih, fieldInfoOf]
theorem classify_bind_arms (sn : String) (p s : String → String)
    (fields : List FieldModel) :
    (classifyFields sn p s fields).bind_arms =
      (fields.filter (fun f => !f.attrs.ignore)).map (fun f => (f.name, f)) := by
  induction fields with
  | nil => rfl
  | cons f rest ih =>
    simp only [classifyFields, List.filter_cons]
    cases h : f.attrs.ignore <;> simp [h, ih]
theorem classify_uniform_arms (sn : String) (p s : String → String)
    (fields : List FieldModel) :
    (classifyFields sn p s fields).uniform_arms =
      (fields.filter (fun f => !f.attrs.ignore)).map (fun f => (sn ++ "_" ++ f.name, f)) := by
  induction fields with
  | nil => rfl
  | cons f rest ih =>
    simp only [classifyFields, List.filter_cons]
    cases h : f.attrs.ignore <;> simp [h, ih]
theorem classify_texture_arms (sn : String) (p s : String → String)
    (fields : List FieldModel) :
    (classifyFields sn p s fields).texture_arms =
      (fields.filter (fun f => !f.attrs.ignore)).flatMap (fun f =>
        [(sn ++ "_" ++ f.name, f), (sn ++ "_" ++ f.name ++ "_sampler", f)]) := by
  induction fields with
  | nil => rfl
  | cons f rest ih =>
    simp only [classifyFields, List.filter_cons]
    cases h : f.attrs.ignore <;> simp [h, ih]
theorem classify_shader_def_arms (sn : String) (p s : String → String)
    (fields : List FieldModel) :
    (classifyFields sn p s fields).shader_def_arms =
      (fields.filter (fun f => f.attrs.shader_def)).map (fun f => (s f.name, f)) := by
  induction fields with
  | nil => rfl
  | cons f rest ih =>
    simp only [classifyFields, List.filter_cons]
    cases h : f.attrs.shader_def <;> simp [h, ih]
theorem classify_vertex_pairs (sn : String) (p s : String → String)
    (fields : List FieldModel) :
    (classifyFields sn p s fields).vertex_pairs =
      (fields.filter (fun f => f.attrs.instance_ || f.attrs.vertex)).map
        (fun f => (vertexBaseName sn p f, f.vertex_formats)) := by
  induction fields with
  | nil => rfl
  | cons f rest ih =>
    simp only [classifyFields, List.filter_cons]
    cases hi : f.attrs.instance_ <;> cases hv : f.attrs.vertex <;>
      simp [hi, hv, ih, vertexBaseName]
theorem buildVertexLayout_length (comps : List (String × VertexFormat)) (loc off : Nat) :
    (buildVertexLayout comps loc off).1.length = comps.length := by
  induction comps generalizing loc off with
  | nil => rfl
  | cons c rest ih => simp [buildVertexLayout, ih]
theorem buildVertexLayout_snd (comps : List (String × VertexFormat)) (loc off : Nat) :
    (buildVertexLayout comps loc off).2 = off + (comps.map (fun c => c.2.size)).sum := by
  induction comps generalizing loc off with
  | nil => simp [buildVertexLayout]
  | cons c rest ih => simp [buildVertexLayout, ih, Nat.add_assoc]
theorem buildVertexLayout_names (comps : List (String × VertexFormat)) (loc off : Nat) :
    (buildVertexLayout comps loc off).1.map (fun a => a.name) = comps.map (fun c => c.1) := by
  induction comps generalizing loc off with
  | nil => rfl
  | cons c rest ih => simp [buildVertexLayout, ih]
theorem buildVertexLayout_sizes (comps : List (String × VertexFormat)) (loc off : Nat) :
    (buildVertexLayout comps loc off).1.map (fun a => a.format.size) =
      comps.map (fun c => c.2.size) := by
  induction comps generalizing loc off with
  | nil => rfl
  | cons c rest ih => simp [buildVertexLayout, ih]
theorem buildVertexLayout_locations (comps : List (String × VertexFormat)) (loc off : Nat) :
    (buildVertexLayout comps loc off).1.map (fun a => a.shader_location) =
      List.range' loc comps.length := by
  induction comps generalizing loc off with
  | nil => rfl
  | cons c rest ih => simp [buildVertexLayout, ih, List.range']
theorem buildVertexLayout_get (comps : List (String × VertexFormat)) (loc off i : Nat)
    (h : i < comps.length) (h2 : i < (buildVertexLayout comps loc off).1.length) :
    (buildVertexLayout comps loc off).1.get ⟨i, h2⟩ =
      { name := (comps.get ⟨i, h⟩).1
        offset := off + ((comps.take i).map (fun c => c.2.size)).sum
        format := (comps.get ⟨i, h⟩).2
        shader_location := loc + i } := by
  induction comps generalizing loc off i with
  | nil => exact absurd h (Nat.not_lt_zero i)
  | cons c rest ih =>
    cases i with
    | zero => simp [buildVertexLayout]
    | succ n =>
      have hn : n < rest.length := Nat.lt_of_succ_lt_succ h
      have hn2 : n < (buildVertexLayout rest (loc + 1) (off + c.2.size)).1.length := by
        rw [buildVertexLayout_length]; exact hn
      have step : (buildVertexLayout (c :: rest) loc off).1.get ⟨n + 1, h2⟩ =
          (buildVertexLayout rest (loc + 1) (off + c.2.size)).1.get ⟨n, hn2⟩ := rfl
      rw [step, ih]
      · simp only [VertexAttributeDescriptor.mk.injEq, List.take_succ_cons, List.map_cons,
          List.sum_cons, List.get_cons_succ]
        refine ⟨trivial, by omega, trivial, by omega⟩
      · exact hn
theorem sum_take_mono (l : List Nat) (i j : Nat) (hij : i ≤ j) :
    (l.take i).sum ≤ (l.take j).sum := by
  have h1 : (l.take j).take i = l.take i := by
    rw [List.take_take, Nat.min_eq_left hij]
  calc (l.take i).sum = ((l.take j).take i).sum := by rw [h1]
    _ ≤ ((l.take j).take i).sum + ((l.take j).drop i).sum := Nat.le_add_right _ _
    _ = (l.take j).sum := by rw [← List.sum_append, List.take_append_drop]
theorem sum_take_pred_add_getLast (l : List Nat) (h : l ≠ []) :
    (l.take (l.length - 1)).sum + l.getLast h = l.sum := by
  conv_rhs => rw [← List.dropLast_append_getLast h]
  rw [List.sum_append, List.dropLast_eq_take]
  simp
theorem buildVertexLayout_offset_eq (comps : List (String × VertexFormat)) (loc off i : Nat)
    (h2 : i < (buildVertexLayout comps loc off).1.length) :
    ((buildVertexLayout comps loc off).1.get ⟨i, h2⟩).offset =
      off + (((buildVertexLayout comps loc off).1.take i).map (fun a => a.format.size)).sum := by
  have h : i < comps.length := by rw [buildVertexLayout_length] at h2; exact h2
  rw [buildVertexLayout_get comps loc off i h h2]
  show off + ((comps.take i).map (fun c => c.2.size)).sum =
    off + (((buildVertexLayout comps loc off).1.take i).map (fun a => a.format.size)).sum
  rw [List.map_take, List.map_take, buildVertexLayout_sizes]
theorem buildVertexLayout_stride_last (comps : List (String × VertexFormat))
    (h : (buildVertexLayout comps 0 0).1 ≠ []) :
    (buildVertexLayout comps 0 0).2 =
      ((buildVertexLayout comps 0 0).1.getLast h).offset +
        ((buildVertexLayout comps 0 0).1.getLast h).format.size := by
  have hpos : 0 < (buildVertexLayout comps 0 0).1.length := List.length_pos.mpr h
  have hl : (buildVertexLayout comps 0 0).1.length - 1 <
      (buildVertexLayout comps 0 0).1.length := by omega
  have hmapne : (buildVertexLayout comps 0 0).1.map (fun a => a.format.size) ≠ [] := by
    simp [h]
  have hsum := sum_take_pred_add_getLast
    ((buildVertexLayout comps 0 0).1.map (fun a => a.format.size)) hmapne
  simp only [List.length_map] at hsum
  have hsize : ((buildVertexLayout comps 0 0).1.getLast h).format.size =
      ((buildVertexLayout comps 0 0).1.map (fun a => a.format.size)).getLast hmapne := by
    rw [List.getLast_eq_get, List.getLast_eq_get]
    simp
  have hoff : ((buildVertexLayout comps 0 0).1.getLast h).offset =
      (((buildVertexLayout comps 0 0).1.map (fun a => a.format.size)).take
        ((buildVertexLayout comps 0 0).1.length - 1)).sum := by
    rw [List.getLast_eq_get, buildVertexLayout_offset_eq, List.map_take]
    exact Nat.zero_add _
  rw [hoff, hsize, hsum, buildVertexLayout_snd, buildVertexLayout_sizes, Nat.zero_add]
/-- C1: for every struct with at least one vertex-input field, the generated
VertexBufferDescriptor assigns the GPU components, across all vertex-input
fields in declared order, shader locations forming the contiguous sequence
starting at 0 with no gaps or repeats, offsets equal to the running byte
cursor starting at 0 and hence monotonically non-decreasing, a stride equal
to the final cursor value, which on a nonempty component list equals the
final offset plus the last component's size, and a step mode fixed to
Instance regardless of whether any field was tagged vertex rather than
instance. -/
theorem C1_vertex_buffer_layout (sn : String) (p s : String → String)
    (fields : List FieldModel)
    (hvert : fields.filter (fun f => f.attrs.instance_ || f.attrs.vertex) ≠ []) :
    (mkVertexBufferDescriptor sn p s fields).attributes.map (fun a => a.shader_location) =
      List.range (mkVertexBufferDescriptor sn p s fields).attributes.length
    ∧ (∀ i (hi : i < (mkVertexBufferDescriptor sn p s fields).attributes.length),
        ((mkVertexBufferDescriptor sn p s fields).attributes.get ⟨i, hi⟩).offset =
          (((mkVertexBufferDescriptor sn p s fields).attributes.take i).map
            (fun a => a.format.size)).sum)
    ∧ (∀ i j (hi : i < (mkVertexBufferDescriptor sn p s fields).attributes.length)
        (hj : j < (mkVertexBufferDescriptor sn p s fields).attributes.length), i ≤ j →
        ((mkVertexBufferDescriptor sn p s fields).attributes.get ⟨i, hi⟩).offset ≤
          ((mkVertexBufferDescriptor sn p s fields).attributes.get ⟨j, hj⟩).offset)
    ∧ (mkVertexBufferDescriptor sn p s fields).stride =
        ((mkVertexBufferDescriptor sn p s fields).attributes.map (fun a => a.format.size)).sum
    ∧ (∀ (hne : (mkVertexBufferDescriptor sn p s fields).attributes ≠ []),
        (mkVertexBufferDescriptor sn p s fields).stride =
          ((mkVertexBufferDescriptor sn p s fields).attributes.getLast hne).offset +
            ((mkVertexBufferDescriptor sn p s fields).attributes.getLast hne).format.size)
    ∧ (mkVertexBufferDescriptor sn p s fields).step_mode = InputStepMode.Instance := by
  refine ⟨?_, ?_, ?_, ?_, ?_, rfl⟩
  · show ((buildVertexLayout (componentList (classifyFields sn p s fields).vertex_pairs)
        0 0).1).map (fun a => a.shader_location) = _
    rw [buildVertexLayout_locations, List.range_eq_range']
    congr 1
    exact (buildVertexLayout_length _ 0 0).symm
  · intro i hi
    exact (buildVertexLayout_offset_eq
      (componentList (classifyFields sn p s fields).vertex_pairs) 0 0 i hi).trans
      (Nat.zero_add _)
  · intro i j hi hj hij
    show ((buildVertexLayout (componentList (classifyFields sn p s fields).vertex_pairs)
          0 0).1.get ⟨i, hi⟩).offset ≤
        ((buildVertexLayout (componentList (classifyFields sn p s fields).vertex_pairs)
          0 0).1.get ⟨j, hj⟩).offset
    rw [buildVertexLayout_offset_eq, buildVertexLayout_offset_eq]
    simp only [Nat.zero_add, List.map_take]
    exact sum_take_mono _ i j hij
  · show (buildVertexLayout (componentList (classifyFields sn p s fields).vertex_pairs)
        0 0).2 = ((buildVertexLayout (componentList
          (classifyFields sn p s fields).vertex_pairs) 0 0).1.map
            (fun a => a.format.size)).sum
    rw [buildVertexLayout_snd, buildVertexLayout_sizes, Nat.zero_add]
  · intro hne
    exact buildVertexLayout_stride_last
      (componentList (classifyFields sn p s fields).vertex_pairs) hne
/-- Witness for C1 at a concrete one-field struct. -/
theorem C1_vertex_buffer_layout_witness :
    (mkVertexBufferDescriptor "Light" (fun x => x) (fun x => x)
        [samplePositionField]).stride =
      ((mkVertexBufferDescriptor "Light" (fun x => x) (fun x => x)
        [samplePositionField]).attributes.map (fun a => a.format.size)).sum
    ∧ (mkVertexBufferDescriptor "Light" (fun x => x) (fun x => x)
        [samplePositionField]).step_mode = InputStepMode.Instance :=
  ⟨(C1_vertex_buffer_layout "Light" (fun x => x) (fun x => x) [samplePositionField]
      (List.cons_ne_nil _ _)).2.2.2.1,
   (C1_vertex_buffer_layout "Light" (fun x => x) (fun x => x) [samplePositionField]
      (List.cons_ne_nil _ _)).2.2.2.2.2⟩
theorem componentList_names (pairs : List (String × List VertexFormat)) :
    (componentList pairs).map (fun c => c.1) =
      pairs.flatMap (fun pr => (List.range pr.2.length).map
        (fun i => componentName pr.1 pr.2.length i)) := by
  unfold componentList
  rw [List.map_flatMap]
  congr 1
  funext pr
  rw [List.map_map, ← List.enum_map_fst pr.2, List.map_map]
  rfl
/-- C2: a non-ignored field annotated buffer whose native bind type is not
a uniform scalar makes the generated bind-type accessor abort with the
fatal buffer panic, modelled as an Except.error result: not a soft None
and not any ordinary Except.ok value. -/
theorem C2_buffer_incompatible_panics (sn : String) (p s : String → String)
    (fields : List FieldModel) (f : FieldModel)
    (hfind : (classifyFields sn p s fields).bind_arms.find?
      (fun arm => arm.1 == f.name) = some (f.name, f))
    (hbuf : f.attrs.buffer = true)
    (hshape : ∀ size, f.bind_type ≠ some (FieldBindType.Uniform size)) :
    get_field_bind_type sn p s fields f.name = Except.error bufferPanicMessage := by
  unfold get_field_bind_type
  rw [hfind]
  cases hbt : f.bind_type with
  | none => simp [fieldBindTypeValue, hbuf, hbt]
  | some bt =>
    cases bt with
    | Uniform size => exact absurd hbt (hshape size)
    | Buffer size => simp [fieldBindTypeValue, hbuf, hbt]
    | Texture => simp [fieldBindTypeValue, hbuf, hbt]
/-- Witness for C2 at a concrete one-field struct. -/
theorem C2_buffer_incompatible_panics_witness :
    get_field_bind_type "MyMaterial" (fun x => x) (fun x => x) [sampleBufferField]
      "data" = Except.error bufferPanicMessage :=
  C2_buffer_incompatible_panics "MyMaterial" (fun x => x) (fun x => x)
    [sampleBufferField] sampleBufferField rfl rfl
    (fun size hcontra => FieldBindType.noConfusion (Option.some.inj hcontra))
/-- C3: the emitted FieldInfo table has exactly one entry per non-ignored
field, in declared order, whose name is the field identifier, whose uniform
name is the struct name, an underscore and the field name, whose texture
name equals the uniform name, whose sampler name is the uniform name
followed by _sampler, and whose is_instanceable copies the field's
instance flag. -/
theorem C3_field_infos (sn : String) (p s : String → String)
    (fields : List FieldModel) :
    get_field_infos sn p s fields =
      (fields.filter (fun f => !f.attrs.ignore)).map (fun f =>
        { name := f.name
          uniform_name := sn ++ "_" ++ f.name
          texture_name := sn ++ "_" ++ f.name
          sampler_name := sn ++ "_" ++ f.name ++ "_sampler"
          is_instanceable := f.attrs.instance_ }) :=
  classify_field_infos sn p s fields
/-- C4: the vertex-attribute tokens are, for each vertex-input field in
declared order, built from the pascal-cased field name prefixed with
I_StructName_ when the instance flag is set (instance taking precedence
over vertex) and StructName_ otherwise; a field expanding to more than one
GPU component appends the 0-based component index with an underscore to the
base token, while a single-component field keeps the bare base token. -/
theorem C4_vertex_attribute_names (sn : String) (p s : String → String)
    (fields : List FieldModel) :
    (mkVertexBufferDescriptor sn p s fields).attributes.map (fun a => a.name) =
      (fields.filter (fun f => f.attrs.instance_ || f.attrs.vertex)).flatMap (fun f =>
        (List.range f.vertex_formats.length).map (fun i =>
          if f.vertex_formats.length > 1 then
            (if f.attrs.instance_ then "I_" ++ sn ++ "_" ++ p f.name
             else sn ++ "_" ++ p f.name) ++ "_" ++ toString i
          else
            if f.attrs.instance_ then "I_" ++ sn ++ "_" ++ p f.name
            else sn ++ "_" ++ p f.name)) := by
  show ((buildVertexLayout (componentList (classifyFields sn p s fields).vertex_pairs)
      0 0).1).map (fun a => a.name) = _
  rw [buildVertexLayout_names, componentList_names, classify_vertex_pairs,
    List.flatMap_map]
  congr 1
/-- C5: a struct with zero vertex-input fields gets no vertex buffer
descriptor at all from get_vertex_buffer_descriptor, never a zero-stride or
empty one. -/
theorem C5_no_vertex_fields_absent (sn : String) (p s : String → String)
    (fields : List FieldModel)
    (h : fields.filter (fun f => f.attrs.instance_ || f.attrs.vertex) = []) :
    get_vertex_buffer_descriptor sn p s fields = none := by
  have hvp : (classifyFields sn p s fields).vertex_pairs = [] := by
    rw [classify_vertex_pairs, h]; rfl
  unfold get_vertex_buffer_descriptor mkVertexBufferDescriptor
  rw [hvp]
  rfl
/-- Witness for C5 at a concrete struct with one non-vertex field. -/
theorem C5_no_vertex_fields_absent_witness :
    get_vertex_buffer_descriptor "Light" (fun x => x) (fun x => x)
      [sampleColorField] = none :=
  C5_no_vertex_fields_absent "Light" (fun x => x) (fun x => x)
    [sampleColorField] rfl
/-- C6: the ignore flag removes a field only from the bindable outputs
(the FieldInfo table and the bind-type, uniform-byte and texture dispatch
arms, all filtered on the negated ignore flag alone), while membership in
the shader-def arms depends only on the shader_def flag and membership in
the vertex-input pairs depends only on the instance and vertex flags: the
three role sets are independent, not a partition. -/
theorem C6_role_sets_independent (sn : String) (p s : String → String)
    (fields : List FieldModel) :
    (classifyFields sn p s fields).field_infos =
        (fields.filter (fun f => !f.attrs.ignore)).map (fieldInfoOf sn)
    ∧ (classifyFields sn p s fields).bind_arms =
        (fields.filter (fun f => !f.attrs.ignore)).map (fun f => (f.name, f))
    ∧ (classifyFields sn p s fields).uniform_arms =
        (fields.filter (fun f => !f.attrs.ignore)).map
          (fun f => (sn ++ "_" ++ f.name, f))
    ∧ (classifyFields sn p s fields).texture_arms =
        (fields.filter (fun f => !f.attrs.ignore)).flatMap (fun f =>
          [(sn ++ "_" ++ f.name, f), (sn ++ "_" ++ f.name ++ "_sampler", f)])
    ∧ (classifyFields sn p s fields).shader_def_arms =
        (fields.filter (fun f => f.attrs.shader_def)).map (fun f => (s f.name, f))
    ∧ (classifyFields sn p s fields).vertex_pairs =
        (fields.filter (fun f => f.attrs.instance_ || f.attrs.vertex)).map
          (fun f => (vertexBaseName sn p f, f.vertex_formats)) :=
  ⟨classify_field_infos sn p s fields, classify_bind_arms sn p s fields,
   classify_uniform_arms sn p s fields, classify_texture_arms sn p s fields,
   classify_shader_def_arms sn p s fields, classify_vertex_pairs sn p s fields⟩
theorem shader_def_format_filterMap (sn : String) (l : List (String × Option String)) :
    (l.filter (fun q => q.2.isSome)).map
        (fun q => sn.toUpper ++ "_" ++ q.1 ++ q.2.getD "") =
      l.filterMap (fun q => q.2.map (fun v => sn.toUpper ++ "_" ++ q.1 ++ v)) := by
  induction l with
  | nil => rfl
  | cons q rest ih =>
    cases hq : q.2 with
    | none => simp [List.filter_cons, List.filterMap_cons, hq, ih]
    | some v => simp [List.filter_cons, List.filterMap_cons, hq, ih]
/-- C7: get_shader_defs always returns a present, possibly empty,
collection; a shader-def field whose current suffix is absent contributes
no token, and one whose suffix is present contributes exactly the
upper-cased struct name, an underscore, the screaming-snake field label and
the suffix. -/
theorem C7_shader_defs (sn : String) (p s : String → String)
    (fields : List FieldModel) :
    (get_shader_defs sn p s fields).isSome = true
    ∧ get_shader_defs sn p s fields =
      some ((fields.filter (fun f => f.attrs.shader_def)).filterMap (fun f =>
        f.shader_def_suffix.map
          (fun suffix => sn.toUpper ++ "_" ++ s f.name ++ suffix))) := by
  refine ⟨rfl, ?_⟩
  show some (List.map (fun q => sn.toUpper ++ "_" ++ q.1 ++ q.2.getD "")
      (List.filter (fun q => q.2.isSome)
        (List.map (fun arm => (arm.1, arm.2.shader_def_suffix))
          ((classifyFields sn p s fields).shader_def_arms)))) = _
  rw [classify_shader_def_arms, List.map_map, shader_def_format_filterMap sn,
    List.filterMap_map]
  congr 1
/-- C8: a name string that none of the struct's own FieldInfo entries
produces (neither as field name, uniform name, texture name nor sampler
name) makes every dispatch accessor return its inert default:
write_uniform_bytes leaves the buffer unchanged, uniform_byte_len returns
0, get_uniform_texture returns none and get_field_bind_type returns an
ordinary absent bind type. -/
theorem C8_unknown_name_inert (sn : String) (p s : String → String)
    (fields : List FieldModel) (name : String)
    (h : ∀ fi ∈ get_field_infos sn p s fields,
        name ≠ fi.name ∧ name ≠ fi.uniform_name ∧ name ≠ fi.texture_name ∧
          name ≠ fi.sampler_name) :
    (∀ buffer, write_uniform_bytes sn p s fields name buffer = buffer)
    ∧ uniform_byte_len sn p s fields name = 0
    ∧ get_uniform_texture sn p s fields name = none
    ∧ get_field_bind_type sn p s fields name = Except.ok none := by
  have hinfos : get_field_infos sn p s fields =
      (fields.filter (fun f => !f.attrs.ignore)).map (fieldInfoOf sn) :=
    classify_field_infos sn p s fields
  have hfields : ∀ f ∈ fields.filter (fun f => !f.attrs.ignore),
      name ≠ f.name ∧ name ≠ sn ++ "_" ++ f.name ∧
        name ≠ sn ++ "_" ++ f.name ++ "_sampler" := by
    intro f hf
    have hmem : fieldInfoOf sn f ∈ get_field_infos sn p s fields := by
      rw [hinfos]
      exact List.mem_map_of_mem _ hf
    have hfi := h _ hmem
    exact ⟨hfi.1, hfi.2.1, hfi.2.2.2⟩
  have huni : ((fields.filter (fun f => !f.attrs.ignore)).map
      (fun f => (sn ++ "_" ++ f.name, f))).find? (fun arm => arm.1 == name) = none := by
    rw [List.find?_eq_none]
    intro arm harm
    rw [List.mem_map] at harm
    obtain ⟨f, hf, rfl⟩ := harm
    simp only [beq_iff_eq]
    exact fun hc => (hfields f hf).2.1 hc.symm
  have hbind : ((fields.filter (fun f => !f.attrs.ignore)).map
      (fun f => (f.name, f))).find? (fun arm => arm.1 == name) = none := by
    rw [List.find?_eq_none]
    intro arm harm
    rw [List.mem_map] at harm
    obtain ⟨f, hf, rfl⟩ := harm
    simp only [beq_iff_eq]
    exact fun hc => (hfields f hf).1 hc.symm
  have htex : ((fields.filter (fun f => !f.attrs.ignore)).flatMap (fun f =>
      [(sn ++ "_" ++ f.name, f), (sn ++ "_" ++ f.name ++ "_sampler", f)])).find?
        (fun arm => arm.1 == name) = none := by
    rw [List.find?_eq_none]
    intro arm harm
    rw [List.mem_flatMap] at harm
    obtain ⟨f, hf, hin⟩ := harm
    simp only [List.mem_cons, List.mem_singleton] at hin
    rcases hin with hin | hin | hfalse
    · rw [hin]
      simp only [beq_iff_eq]
      exact fun hc => (hfields f hf).2.1 hc.symm
    · rw [hin]
      simp only [beq_iff_eq]
      exact fun hc => (hfields f hf).2.2 hc.symm
    · cases hfalse
  refine ⟨?_, ?_, ?_, ?_⟩
  · intro buffer
    unfold write_uniform_bytes
    rw [classify_uniform_arms, huni]
  · unfold uniform_byte_len
    rw [classify_uniform_arms, huni]
  · unfold get_uniform_texture
    rw [classify_texture_arms, htex]
  · unfold get_field_bind_type
    rw [classify_bind_arms, hbind]
/-- Witness for C8 at a concrete struct and the unknown name nope. -/
theorem C8_unknown_name_inert_witness :
    write_uniform_bytes "Light" (fun x => x) (fun x => x) [sampleColorField]
        "nope" [1, 2, 3] = [1, 2, 3]
    ∧ uniform_byte_len "Light" (fun x => x) (fun x => x) [sampleColorField]
        "nope" = 0
    ∧ get_uniform_texture "Light" (fun x => x) (fun x => x) [sampleColorField]
        "nope" = none
    ∧ get_field_bind_type "Light" (fun x => x) (fun x => x) [sampleColorField]
        "nope" = Except.ok none :=
  ⟨(C8_unknown_name_inert "Light" (fun x => x) (fun x => x) [sampleColorField]
      "nope" (by decide)).1 [1, 2, 3],
   (C8_unknown_name_inert "Light" (fun x => x) (fun x => x) [sampleColorField]
      "nope" (by decide)).2.1,
   (C8_unknown_name_inert "Light" (fun x => x) (fun x => x) [sampleColorField]
      "nope" (by decide)).2.2.1,
   (C8_unknown_name_inert "Light" (fun x => x) (fun x => x) [sampleColorField]
      "nope" (by decide)).2.2.2⟩
/-- C9 counterexample: a uniform annotation whose content fails meta
parsing does not fall back to the all-false defaults; the source unwraps
the parse_meta result, so generation aborts with a panic. -/
theorem C9_malformed_panics_counterexample :
    parseFieldAttributes [malformedUniformAttr] = Except.error parseMetaPanicMessage
    ∧ parseFieldAttributes [malformedUniformAttr] ≠
        Except.ok defaultUniformAttributes :=
  ⟨rfl, fun hcontra => Except.noConfusion hcontra⟩
/-- C9 amended: absence of the uniform annotation yields the all-false
defaults, and annotation content that parses as a meta item but is not
recognized as valid attribute arguments also falls back to the all-false
defaults; annotation content that fails meta parsing instead aborts
generation with a panic. -/
theorem C9_lenient_parse_amended (attrs : List Attribute) :
    (attrs.find? (fun a => a.path == UNIFORM_ATTRIBUTE_NAME) = none →
      parseFieldAttributes attrs = Except.ok defaultUniformAttributes)
    ∧ (∀ a, attrs.find? (fun a => a.path == UNIFORM_ATTRIBUTE_NAME) = some a →
        a.parsed_meta = some none →
          parseFieldAttributes attrs = Except.ok defaultUniformAttributes)
    ∧ (∀ a, attrs.find? (fun a => a.path == UNIFORM_ATTRIBUTE_NAME) = some a →
        a.parsed_meta = none →
          parseFieldAttributes attrs = Except.error parseMetaPanicMessage) := by
  refine ⟨?_, ?_, ?_⟩
  · intro h
    simp [parseFieldAttributes, h, defaultUniformAttributes]
  · intro a ha hm
    simp [parseFieldAttributes, ha, hm, defaultUniformAttributes,
      UniformAttributes.ofArgs]
  · intro a ha hm
    simp [parseFieldAttributes, ha, hm]
/-- Witness for the amended C9 at three concrete attribute lists. -/
theorem C9_lenient_parse_amended_witness :
    parseFieldAttributes [] = Except.ok defaultUniformAttributes
    ∧ parseFieldAttributes [unrecognizedUniformAttr] =
        Except.ok defaultUniformAttributes
    ∧ parseFieldAttributes [malformedUniformAttr] =
        Except.error parseMetaPanicMessage :=
  ⟨(C9_lenient_parse_amended []).1 rfl,
   (C9_lenient_parse_amended [unrecognizedUniformAttr]).2.1
     unrecognizedUniformAttr rfl rfl,
   (C9_lenient_parse_amended [malformedUniformAttr]).2.2
     malformedUniformAttr rfl rfl⟩
/-- C10: only the first attribute named uniform on a field determines the
parsed FieldAttributes; everything after it, including further uniform
attributes, is silently ignored. -/
theorem C10_first_uniform_attribute_wins (pre post : List Attribute) (a : Attribute)
    (hpre : ∀ b ∈ pre, (b.path == UNIFORM_ATTRIBUTE_NAME) = false)
    (ha : (a.path == UNIFORM_ATTRIBUTE_NAME) = true) :
    parseFieldAttributes (pre ++ a :: post) = parseFieldAttributes [a] := by
  have h2 : ∀ l : List Attribute,
      (a :: l).find? (fun b => b.path == UNIFORM_ATTRIBUTE_NAME) = some a := by
    intro l
    simp [List.find?_cons, ha]
  have h1 : pre.find? (fun b => b.path == UNIFORM_ATTRIBUTE_NAME) = none := by
    rw [List.find?_eq_none]
    intro b hb
    simp [hpre b hb]
  have hfind : (pre ++ a :: post).find?
      (fun b => b.path == UNIFORM_ATTRIBUTE_NAME) = some a := by
    rw [List.find?_append, h1, h2 post]
    rfl
  unfold parseFieldAttributes
  rw [hfind, h2 []]
/-- Witness for C10: with two uniform attributes on one field, the parse
result equals the parse of the first alone, and the second's vertex flag is
dropped. -/
theorem C10_first_uniform_attribute_wins_witness :
    parseFieldAttributes [firstUniformAttr, secondUniformAttr] =
        parseFieldAttributes [firstUniformAttr]
    ∧ parseFieldAttributes [firstUniformAttr, secondUniformAttr] =
        Except.ok { ignore := true
                    shader_def := false
                    instance_ := false
                    vertex := false
                    buffer := false } :=
  ⟨C10_first_uniform_attribute_wins [] [secondUniformAttr] firstUniformAttr
      (by simp) rfl,
   rfl⟩
